import Mathlib

/-!
Shallow embedding of `database/connection.py` (class `Database`): configuration
resolution with layered precedence (`_load_config`), the single-connection
lifecycle (`connect` / `close` / `get_cursor`), the staff-lookup helpers, and
`fetch_one`.

Python semantics that matter here and are reflected below:
* When a class body defines the same method twice, the later definition wins.
  The effective `get_cursor`, `close` and `get_user_first_name` are therefore
  the second occurrences in the file (no auto-connect in `get_cursor`, no
  `closed` check in `close`, no `try/except` in `get_user_first_name`).
* `os.getenv(name)` returns `None` when unset; `os.getenv("DB_PORT", "5432")`
  returns the default only when the variable is unset.
* Python truthiness: `None` and `""` are falsy; a dict is falsy iff empty.
* A `dict` preserves insertion order; assignment replaces a present key in
  place and otherwise appends.
-/

namespace PaperSync

/-- The process environment, as seen through `os.getenv`: `none` means unset. -/
abbrev Env := String → Option String

/-- A Python dict used as a configuration: an insertion-ordered association
list.  Values are `Option String` because `os.getenv` can deliver `None`
(the dict built in the env branch of `_load_config` holds such values). -/
abbrev Config := List (String × Option String)

/-- Python truthiness of a dict value of type `Option String`:
`None` and the empty string are falsy. -/
def truthyVal : Option String → Bool
  | none => false
  | some s => !s.isEmpty

/-- Python truthiness of `self._config` (`None` or a dict): `None` is falsy, a
dict is truthy iff non-empty.  This is the guard `if self._config:`. -/
def configTruthy : Option Config → Bool
  | none => false
  | some c => !c.isEmpty

/-- Python dict assignment `d[k] = v`: replace in place when the key is
present, otherwise append at the end (insertion order). -/
def setKey (c : Config) (k : String) (v : Option String) : Config :=
  if c.any (fun kv => kv.1 == k) then
    c.map (fun kv => if kv.1 == k then (k, v) else kv)
  else c ++ [(k, v)]

/-- Dict lookup: `some v` when the key is present with value `v`. -/
def lookupKey (c : Config) (k : String) : Option (Option String) :=
  (c.find? (fun kv => kv.1 == k)).map (fun kv => kv.2)

/-- State of one candidate `config.json` path, as `_load_config` can observe
it: the file is absent (`exists()` is false), or present but `open`/`json.load`
raises (caught, logged as a warning, skipped), or parses as a JSON object with
the given fields. -/
inductive FileState where
  | absent
  | raisesOnLoad
  | parsed (cfg : Config)
deriving DecidableEq

/-- The five configuration keys, in the order the source iterates them. -/
def configKeys : List String := ["dbname", "user", "password", "host", "port"]

/-- The dict built first in `_load_config` from the environment variables
`DB_NAME`, `DB_USER`, `DB_PASSWORD`, `DB_HOST`, `DB_PORT` (port defaulting to
`"5432"` when unset). -/
def envConfig (env : Env) : Config :=
  [("dbname", env "DB_NAME"), ("user", env "DB_USER"),
   ("password", env "DB_PASSWORD"), ("host", env "DB_HOST"),
   ("port", some ((env "DB_PORT").getD "5432"))]

/-- Python `str.upper()`; the five keys it is applied to are plain ASCII. -/
def pyUpper (s : String) : String := String.mk (s.data.map Char.toUpper)

/-- The merge loop applied to a parsed file config:
`for key in [...]: if os.getenv(f"DB_{key.upper()}"): file_config[key] = ...`.
Note the env-variable name is `"DB_" ++ key.upper()`, so for the key `dbname`
the loop consults `DB_DBNAME` (not `DB_NAME`). -/
def mergeEnv (env : Env) (fc : Config) : Config :=
  configKeys.foldl (fun acc key =>
    match env ("DB_" ++ pyUpper key) with
    | some v => if v.isEmpty then acc else setKey acc key (some v)
    | none => acc) fc

/-- The `for config_path in possible_paths` loop: the first candidate whose
file exists and parses yields its fields merged with the environment; a path
that is absent or raises is skipped. -/
def tryFiles (env : Env) : List FileState → Option Config
  | [] => none
  | FileState.absent :: rest => tryFiles env rest
  | FileState.raisesOnLoad :: rest => tryFiles env rest
  | FileState.parsed fc :: _ => some (mergeEnv env fc)

/-- The literal fallback configuration from the source. -/
def fallback_config : Config :=
  [("dbname", some "DB_PAPERSYNC"), ("user", some "postgres"),
   ("password", some "papersync2025"), ("host", some "localhost"),
   ("port", some "5432")]

/-- `_load_config`, as a function of the environment, the states of the four
candidate paths (in probe order), and the current `self._config`.  Returns the
config together with the new `self._config`.  Every fallible operation in the
source body sits inside a `try/except`, so the embedding is total. -/
def load_config (env : Env) (fs : List FileState) (cfg0 : Option Config) :
    Config × Option Config :=
  if configTruthy cfg0 then (cfg0.getD [], cfg0)
  else
    let config := envConfig env
    if config.all (fun kv => truthyVal kv.2) then (config, some config)
    else
      match tryFiles env fs with
      | some fc => (fc, some fc)
      | none => (fallback_config, some fallback_config)

/-- An environment with nothing set. -/
def emptyEnv : Env := fun _ => none

/-- A complete environment used in concrete instantiations. -/
def envAll : Env := fun n =>
  if n == "DB_NAME" then some "edb"
  else if n == "DB_USER" then some "eu"
  else if n == "DB_PASSWORD" then some "ep"
  else if n == "DB_HOST" then some "eh"
  else if n == "DB_PORT" then some "5433"
  else none

/-! ### Connection manager -/

/-- A psycopg2 connection handle: `id` distinguishes distinct handles returned
by successive driver calls; `closed` mirrors `connection.closed`. -/
structure Conn where
  id : Nat
  closed : Bool
deriving DecidableEq

/-- The mutable state of a `Database` instance.  `__init__` sets
`self.connection = None` and `self._config = None`; no method of the class
ever assigns `self.cursor`, which is why that field starts as `none` and, as
proved below, stays `none` in every reachable state.  `attempts` counts the
`psycopg2.connect` calls made so far and indexes the driver oracle. -/
structure DB where
  connection : Option Conn
  _config : Option Config
  cursor : Option Unit
  attempts : Nat
deriving DecidableEq

/-- The state of a freshly constructed `Database()`. -/
def initDB : DB := { connection := none, _config := none, cursor := none, attempts := 0 }

/-- The exceptions the embedded operations can raise. -/
inductive DBError where
  | connectionError (msg : String)
  | noConnection (msg : String)
  | driverError (msg : String)
deriving DecidableEq

/-- Driver oracle: the outcome of the n-th `psycopg2.connect` call with the
given parameters — `some id` is a fresh open handle, `none` means the driver
raises. -/
abbrev Driver := Nat → Config → Option Nat

/-- The `try`-block of `connect`: resolve the config, call the driver.  On
success the new handle is assigned to `self.connection`; on failure the
assignment never happens (the right-hand side raised), and a
`ConnectionError` is raised after the traceback is printed. -/
def connectAttempt (env : Env) (fs : List FileState) (driver : Driver) (s : DB) :
    Except DBError Conn × DB :=
  match driver s.attempts (load_config env fs s._config).1 with
  | some n =>
      (Except.ok { id := n, closed := false },
       { s with connection := some { id := n, closed := false },
                _config := (load_config env fs s._config).2,
                attempts := s.attempts + 1 })
  | none =>
      (Except.error (DBError.connectionError "Database connection failed"),
       { s with _config := (load_config env fs s._config).2,
                attempts := s.attempts + 1 })

/-- `connect`: `if self.connection and not self.connection.closed: return
self.connection`, otherwise attempt a fresh driver connection. -/
def connect (env : Env) (fs : List FileState) (driver : Driver) (s : DB) :
    Except DBError Conn × DB :=
  match s.connection with
  | some c => if c.closed then connectAttempt env fs driver s else (Except.ok c, s)
  | none => connectAttempt env fs driver s

/-- The effective `close` (the later of the two definitions): the guard is
`if self.connection:` with no `closed` check; it calls `connection.close()`
and does not reset `self.connection` to `None`. -/
def close (s : DB) : DB :=
  match s.connection with
  | some c => { s with connection := some { c with closed := true } }
  | none => s

/-- The effective `get_cursor` (the later definition): raise when
`self.connection` is `None`, otherwise `self.connection.cursor()` — which the
psycopg2 driver refuses on a closed connection. -/
def get_cursor (s : DB) : Except DBError Unit :=
  match s.connection with
  | none => Except.error (DBError.noConnection "No active database connection.")
  | some c =>
      if c.closed then Except.error (DBError.driverError "connection already closed")
      else Except.ok ()

/-! ### The external STAFF table and the lookup helpers -/

/-- A row of the external `STAFF` table. -/
structure StaffRow where
  staff_id : Int
  username : String
  firstname : String
  lastname : String
deriving DecidableEq

abbrev Table := List StaffRow

/-- `SELECT STAFF_FIRSTNAME FROM STAFF WHERE STAFF_USERNAME = %s` followed by
`fetchone()`: the first matching row, if any. -/
def queryFirstNameByUsername (t : Table) (u : String) : Option String :=
  (t.find? (fun r => r.username == u)).map (fun r => r.firstname)

/-- `SELECT STAFF_FIRSTNAME, STAFF_LASTNAME FROM STAFF WHERE STAFF_ID = %s`
followed by `fetchone()`. -/
def queryStaffById (t : Table) (i : Int) : Option (String × String) :=
  (t.find? (fun r => r.staff_id == i)).map (fun r => (r.firstname, r.lastname))

/-- Python `str.isspace` on the ASCII whitespace characters (the general
Unicode cases are irrelevant to the strings this program builds). -/
def isPySpace (c : Char) : Bool :=
  c == ' ' || c == '\t' || c == '\n' || c == '\r' || c == '\x0b' || c == '\x0c'

/-- Python `str.strip()`: drop leading and trailing whitespace. -/
def pyStrip (s : String) : String :=
  String.mk (((s.data.dropWhile isPySpace).reverse.dropWhile isPySpace).reverse)

/-- The effective `get_user_first_name` (the later of the two duplicate
definitions, which has NO `try/except`): acquire a cursor via `get_cursor`,
execute and fetch.  `execOk` is the oracle for whether the driver-side
execute/fetch succeeds; any raised exception propagates to the caller. -/
def get_user_first_name (s : DB) (execOk : Bool) (t : Table) (username : String) :
    Except DBError (Option String) :=
  match get_cursor s with
  | Except.error e => Except.error e
  | Except.ok _ =>
      if execOk then Except.ok (queryFirstNameByUsername t username)
      else Except.error (DBError.driverError "execute failed")

/-- The `try`-block body of `get_staff_name_by_id` for a non-`None` id:
cursor acquisition, execute, fetch, and `f"{firstname} {lastname}".strip()`. -/
def staff_name_query (s : DB) (execOk : Bool) (t : Table) (i : Int) :
    Except DBError (Option String) :=
  match get_cursor s with
  | Except.error e => Except.error e
  | Except.ok _ =>
      if execOk then
        match queryStaffById t i with
        | some fl => Except.ok (some (pyStrip (fl.1 ++ " " ++ fl.2)))
        | none => Except.ok none
      else Except.error (DBError.driverError "execute failed")

/-- `get_staff_name_by_id`: `if staff_id is None: return None` comes before
the `try`, so no query is ever issued for a `None` id; the blanket
`except Exception: return None` converts every failure of the body into an
absent result. -/
def get_staff_name_by_id (s : DB) (execOk : Bool) (t : Table) (staff_id : Option Int) :
    Option String :=
  match staff_id with
  | none => none
  | some i =>
      match staff_name_query s execOk t i with
      | Except.ok r => r
      | Except.error _ => none

/-- `fetch_one(query, params)`: the whole body is under `try/except
Exception: return None`.  It calls `self.connect()` (a failure is caught) and
then reads `self.cursor` — an attribute no method of the class ever assigns,
so the read raises `AttributeError`, which the handler also converts to
`None`.  `fetchResult` is the oracle for what `cursor.execute`/`fetchone`
would return if the attribute existed. -/
def fetch_one (env : Env) (fs : List FileState) (driver : Driver)
    (query : String) (params : List String)
    (fetchResult : String → List String → Option (List String)) (s : DB) :
    Option (List String) × DB :=
  match connect env fs driver s with
  | (Except.error _, s1) => (none, s1)
  | (Except.ok _, s1) =>
      match s1.cursor with
      | none => (none, s1)
      | some _ => (fetchResult query params, s1)

/-! ### Reachable manager states

The operations of the class that write any field of the instance are
`connect` (sets `connection`, `_config`, makes driver attempts), `close`
(marks the handle closed), `_load_config` (sets `_config`) and `fetch_one`
(via its inner `connect`).  `commit`, `rollback`, `get_cursor` and the lookup
helpers only read the state; they are included as explicit no-op steps. -/

inductive Op where
  | opConnect (env : Env) (fs : List FileState) (driver : Driver)
  | opClose
  | opLoadConfig (env : Env) (fs : List FileState)
  | opFetchOne (env : Env) (fs : List FileState) (driver : Driver)
      (query : String) (params : List String)
      (fetchResult : String → List String → Option (List String))
  | opCommit
  | opRollback
  | opReadOnly

/-- The state transition of one method call. -/
def step (s : DB) : Op → DB
  | Op.opConnect env fs driver => (connect env fs driver s).2
  | Op.opClose => close s
  | Op.opLoadConfig env fs => { s with _config := (load_config env fs s._config).2 }
  | Op.opFetchOne env fs driver q ps fr => (fetch_one env fs driver q ps fr s).2
  | Op.opCommit => s
  | Op.opRollback => s
  | Op.opReadOnly => s

/-- The state after a sequence of method calls on a fresh `Database()`. -/
def run (ops : List Op) : DB := ops.foldl step initDB

/-! ### Property-level definitions and concrete instances -/

/-- Whether a candidate path holds a file that parses. -/
def isParsed : FileState → Bool
  | FileState.parsed _ => true
  | _ => false

/-- A configuration field is filled when the key is present with a truthy
(non-`None`, non-empty) value. -/
def fieldFilled (c : Config) (k : String) : Bool :=
  match lookupKey c k with
  | some v => truthyVal v
  | none => false

/-- All five fields present and non-empty. -/
def fullyPopulated (c : Config) : Bool := configKeys.all (fieldFilled c)

/-- An environment setting only `DB_NAME`. -/
def envOnlyName : Env := fun n => if n == "DB_NAME" then some "envdb" else none

/-- A first candidate path holding a file that parses to
`{"dbname": "filedb"}`. -/
def fsDbnameFile : List FileState := [FileState.parsed [("dbname", some "filedb")]]

/-- A first candidate path holding a file that parses to the empty JSON
object `{}`. -/
def fsEmptyFile : List FileState := [FileState.parsed []]

/-- A driver whose n-th connect call yields a fresh handle numbered `7 + n`. -/
def drvSucc : Driver := fun n _ => some (7 + n)

/-- A driver whose every connect call raises. -/
def drvFail : Driver := fun _ _ => none

/-- A one-row STAFF table. -/
def staffT : Table :=
  [{ staff_id := 3, username := "al", firstname := "Ana", lastname := "Lim" }]

/-- A manager state holding an open connection. -/
def dbOpen : DB :=
  { connection := some { id := 0, closed := false }, _config := none,
    cursor := none, attempts := 0 }

/-- The manager state after one successful `connect` on a fresh instance. -/
def s1W : DB := (connect envAll [] drvSucc initDB).2

/-! ### Theorems -/

/-- C1: when all five environment variables are set and non-empty (with
`DB_PORT` defaulting to `"5432"` when unset), the first call to
`_load_config` returns exactly the five environment values — the dict built
from `os.getenv` — for every state of the candidate config-file paths. -/
theorem c1_env_complete_wins (env : Env) (fs : List FileState)
    (h1 : truthyVal (env "DB_NAME") = true)
    (h2 : truthyVal (env "DB_USER") = true)
    (h3 : truthyVal (env "DB_PASSWORD") = true)
    (h4 : truthyVal (env "DB_HOST") = true)
    (h5 : truthyVal (some ((env "DB_PORT").getD "5432")) = true) :
    (load_config env fs none).1 = envConfig env := by
  have hall : (envConfig env).all (fun kv => truthyVal kv.2) = true := by
    simp [envConfig, List.all, h1, h2, h3, h4, h5]
  simp [load_config, configTruthy, hall]

/-- Witness for C1 at a complete concrete environment and a candidate file
that would resolve differently. -/
theorem c1_env_complete_wins_witness :
    (load_config envAll fsDbnameFile none).1 = envConfig envAll :=
  c1_env_complete_wins envAll fsDbnameFile (by decide) (by decide) (by decide)
    (by decide) (by decide)

/-- C2: evaluation of `_load_config` at the failing input.  With only
`DB_NAME` set (so the environment set is incomplete) and the first candidate
path parsing to `{"dbname": "filedb"}`, the merge loop consults
`DB_DBNAME` — never `DB_NAME` — so the environment does NOT outrank the file
for the `dbname` key: the result keeps the file's value. -/
theorem c2_merge_misses_db_name :
    envOnlyName "DB_NAME" = some "envdb" ∧
    (load_config envOnlyName fsDbnameFile none).1 = [("dbname", some "filedb")] ∧
    lookupKey (load_config envOnlyName fsDbnameFile none).1 "dbname" ≠ some (some "envdb") := by
  refine ⟨rfl, by decide, by decide⟩

/-- The file-probing loop yields nothing when no candidate path parses. -/
theorem tryFiles_none (env : Env) (fs : List FileState)
    (h : ∀ f ∈ fs, isParsed f = false) : tryFiles env fs = none := by
  induction fs with
  | nil => rfl
  | cons f rest ih =>
    cases f with
    | absent => exact ih (fun g hg => h g (List.mem_cons_of_mem _ hg))
    | raisesOnLoad => exact ih (fun g hg => h g (List.mem_cons_of_mem _ hg))
    | parsed c => exact absurd (h _ (List.mem_cons_self _ _)) (by simp [isParsed])

/-- C3: `_load_config` is a total function (every fallible operation of the
body sits inside a `try/except`, so the embedding needs no error monad), and
when the environment set is incomplete and no candidate file parses —
absent files and files whose load raises are skipped with a warning — the
first call returns the literal fallback configuration. -/
theorem c3_fallback_when_nothing_parses (env : Env) (fs : List FileState)
    (h1 : (envConfig env).all (fun kv => truthyVal kv.2) = false)
    (h2 : ∀ f ∈ fs, isParsed f = false) :
    load_config env fs none = (fallback_config, some fallback_config) := by
  simp [load_config, configTruthy, h1, tryFiles_none env fs h2]

/-- Witness for C3: nothing set, one absent path and one unparseable path. -/
theorem c3_fallback_when_nothing_parses_witness :
    load_config emptyEnv [FileState.absent, FileState.raisesOnLoad] none =
      (fallback_config, some fallback_config) :=
  c3_fallback_when_nothing_parses emptyEnv [FileState.absent, FileState.raisesOnLoad]
    (by decide) (by decide)

/-- C4 counterexample: with an empty environment and the first candidate path
parsing to the empty JSON object `{}`, `_load_config` returns that file
config as-is — an empty dict, with none of the five fields present — so the
claim that every returned config is fully populated is false. -/
theorem c4_counterexample :
    (load_config emptyEnv fsEmptyFile none).1 = [] ∧
    fullyPopulated (load_config emptyEnv fsEmptyFile none).1 = false := by
  exact ⟨by decide, by decide⟩

/-- C4 as amended: a config produced by the environment branch or the
fallback branch is fully populated; only the file branch can return a
partially filled config (it returns the parsed file's fields, merged with
environment overrides, without any completeness check).  So whenever no
candidate file parses, every resolved config is fully populated. -/
theorem c4_amended_populated_unless_file (env : Env) (fs : List FileState)
    (h : ∀ f ∈ fs, isParsed f = false) :
    fullyPopulated (load_config env fs none).1 = true := by
  have hfull : fullyPopulated (envConfig env) =
      (envConfig env).all (fun kv => truthyVal kv.2) := rfl
  rcases hall : (envConfig env).all (fun kv => truthyVal kv.2) with _ | _
  · simp [load_config, configTruthy, hall, tryFiles_none env fs h]
    decide
  · simp [load_config, configTruthy, hall, hfull]

/-- Witness for the amended C4: partial environment, no parseable file. -/
theorem c4_amended_populated_unless_file_witness :
    fullyPopulated (load_config envOnlyName [FileState.absent] none).1 = true :=
  c4_amended_populated_unless_file envOnlyName [FileState.absent] (by decide)

/-- Equation for a driver attempt that succeeds with handle number `n`. -/
theorem connectAttempt_ok (env : Env) (fs : List FileState) (driver : Driver)
    (s : DB) (n : Nat)
    (hd : driver s.attempts (load_config env fs s._config).1 = some n) :
    connectAttempt env fs driver s =
      (Except.ok { id := n, closed := false },
       { s with connection := some { id := n, closed := false },
                _config := (load_config env fs s._config).2,
                attempts := s.attempts + 1 }) := by
  simp [connectAttempt, hd]

/-- Equation for a driver attempt that raises. -/
theorem connectAttempt_fail (env : Env) (fs : List FileState) (driver : Driver)
    (s : DB)
    (hd : driver s.attempts (load_config env fs s._config).1 = none) :
    connectAttempt env fs driver s =
      (Except.error (DBError.connectionError "Database connection failed"),
       { s with _config := (load_config env fs s._config).2,
                attempts := s.attempts + 1 }) := by
  simp [connectAttempt, hd]

/-- Equation for `connect` when an open connection is already cached. -/
theorem connect_live (env : Env) (fs : List FileState) (driver : Driver)
    (s : DB) (c : Conn) (h1 : s.connection = some c) (h2 : c.closed = false) :
    connect env fs driver s = (Except.ok c, s) := by
  simp [connect, h1, h2]

/-- Equation for `connect` when the cached connection reports closed. -/
theorem connect_closed_conn (env : Env) (fs : List FileState) (driver : Driver)
    (s : DB) (c : Conn) (h1 : s.connection = some c) (h2 : c.closed = true) :
    connect env fs driver s = connectAttempt env fs driver s := by
  simp [connect, h1, h2]

/-- Equation for `connect` when no connection has ever been opened. -/
theorem connect_no_conn (env : Env) (fs : List FileState) (driver : Driver)
    (s : DB) (h1 : s.connection = none) :
    connect env fs driver s = connectAttempt env fs driver s := by
  simp [connect, h1]

/-- `connect` either delegates to a driver attempt or returns a cached open
handle unchanged. -/
theorem connect_cases (env : Env) (fs : List FileState) (driver : Driver) (s : DB) :
    connect env fs driver s = connectAttempt env fs driver s ∨
    ∃ c, s.connection = some c ∧ c.closed = false ∧
      connect env fs driver s = (Except.ok c, s) := by
  rcases hc : s.connection with _ | c0
  · exact Or.inl (connect_no_conn env fs driver s hc)
  · rcases hcl : c0.closed with _ | _
    · exact Or.inr ⟨c0, rfl, hcl, connect_live env fs driver s c0 hc hcl⟩
    · exact Or.inl (connect_closed_conn env fs driver s c0 hc hcl)

/-- A successful `connect` leaves its returned handle, open, as
`self.connection`. -/
theorem connect_ok_state (env : Env) (fs : List FileState) (driver : Driver)
    (s : DB) (c : Conn) (h : (connect env fs driver s).1 = Except.ok c) :
    (connect env fs driver s).2.connection = some c ∧ c.closed = false := by
  rcases connect_cases env fs driver s with hca | ⟨c0, hc, hcl, hce⟩
  · rw [hca] at h ⊢
    rcases hd : driver s.attempts (load_config env fs s._config).1 with _ | n
    · rw [connectAttempt_fail env fs driver s hd] at h
      exact absurd h (by simp)
    · rw [connectAttempt_ok env fs driver s n hd] at h ⊢
      simp only [Except.ok.injEq] at h
      subst h
      exact ⟨rfl, rfl⟩
  · rw [hce] at h ⊢
    simp only [Except.ok.injEq] at h
    exact ⟨h ▸ hc, h ▸ hcl⟩

/-- C5: lifecycle of the single connection.  When `connect` has just
succeeded with handle `c` and state `s1`, a second `connect` without an
intervening `close` returns the very same handle and leaves the state — in
particular the count of driver connect calls — untouched (no duplicate
connection is opened); and after `close`, a further `connect` performs a
fresh driver attempt (Connected→Disconnected→Connected), returning the new
handle that attempt yields. -/
theorem c5_connect_lifecycle (env : Env) (fs : List FileState) (driver : Driver)
    (s s1 : DB) (c : Conn)
    (h : (connect env fs driver s).1 = Except.ok c)
    (hs1 : s1 = (connect env fs driver s).2) :
    connect env fs driver s1 = (Except.ok c, s1) ∧
    ∀ m, driver s1.attempts (load_config env fs s1._config).1 = some m →
      (connect env fs driver (close s1)).1 = Except.ok { id := m, closed := false } ∧
      (connect env fs driver (close s1)).2.attempts = s1.attempts + 1 := by
  have hpost := connect_ok_state env fs driver s c h
  rw [← hs1] at hpost
  constructor
  · exact connect_live env fs driver s1 c hpost.1 hpost.2
  · intro m hm
    have hcc : (close s1).connection = some { id := c.id, closed := true } := by
      simp [close, hpost.1]
    have hatt : (close s1).attempts = s1.attempts := by
      simp [close, hpost.1]
    have hcfg : (close s1)._config = s1._config := by
      simp [close, hpost.1]
    have hd : driver (close s1).attempts (load_config env fs (close s1)._config).1
        = some m := by
      rw [hatt, hcfg]; exact hm
    rw [connect_closed_conn env fs driver (close s1) _ hcc rfl,
        connectAttempt_ok env fs driver (close s1) m hd]
    exact ⟨rfl, by simp [hatt]⟩

/-- Witness for C5: a fresh manager, a driver numbering its handles 7, 8, …;
the second `connect` returns handle 7 again and after `close` the next
`connect` returns the fresh handle 8 from a second driver call. -/
theorem c5_connect_lifecycle_witness :
    connect envAll [] drvSucc s1W = (Except.ok { id := 7, closed := false }, s1W) ∧
    ((connect envAll [] drvSucc (close s1W)).1 = Except.ok { id := 8, closed := false } ∧
      (connect envAll [] drvSucc (close s1W)).2.attempts = s1W.attempts + 1) :=
  ⟨(c5_connect_lifecycle envAll [] drvSucc initDB s1W { id := 7, closed := false }
      rfl rfl).1,
   (c5_connect_lifecycle envAll [] drvSucc initDB s1W { id := 7, closed := false }
      rfl rfl).2 8 rfl⟩

/-- C6: when the driver-level connect call fails, `connect` raises a typed
`ConnectionError` (the assignment `self.connection = psycopg2.connect(...)`
never happens, its right-hand side having raised), so `self.connection`
keeps its pre-call value and the failed attempt is never cached. -/
theorem c6_connect_failure_leaves_connection (env : Env) (fs : List FileState)
    (driver : Driver) (s : DB) (e : DBError)
    (h : (connect env fs driver s).1 = Except.error e) :
    e = DBError.connectionError "Database connection failed" ∧
    (connect env fs driver s).2.connection = s.connection := by
  rcases connect_cases env fs driver s with hca | ⟨c0, hc, hcl, hce⟩
  · rw [hca] at h ⊢
    rcases hd : driver s.attempts (load_config env fs s._config).1 with _ | n
    · rw [connectAttempt_fail env fs driver s hd] at h ⊢
      simp only [Except.error.injEq] at h
      exact ⟨h.symm, rfl⟩
    · rw [connectAttempt_ok env fs driver s n hd] at h
      exact absurd h (by simp)
  · rw [hce] at h
    exact absurd h (by simp)

/-- Witness for C6: a fresh manager and an always-failing driver. -/
theorem c6_connect_failure_leaves_connection_witness :
    DBError.connectionError "Database connection failed"
        = DBError.connectionError "Database connection failed" ∧
    (connect envAll [] drvFail initDB).2.connection = initDB.connection :=
  c6_connect_failure_leaves_connection envAll [] drvFail initDB
    (DBError.connectionError "Database connection failed") rfl

/-- C7: `get_staff_name_by_id(None)` returns absent for every manager state,
execution outcome and table — the early return precedes the `try`, so the
result cannot depend on the database at all; with a live connection and a
succeeding execution, a matching row yields the space-joined, stripped
`"First Last"`, and a non-matching id yields absent, not an error. -/
theorem c7_staff_name_by_id (s : DB) (c : Conn) (t : Table) (i : Int)
    (hconn : s.connection = some c) (hopen : c.closed = false) :
    (∀ s2 ok2 t2, get_staff_name_by_id s2 ok2 t2 none = none) ∧
    (∀ f l, queryStaffById t i = some (f, l) →
      get_staff_name_by_id s true t (some i) = some (pyStrip (f ++ " " ++ l))) ∧
    (queryStaffById t i = none →
      get_staff_name_by_id s true t (some i) = none) := by
  have hcur : get_cursor s = Except.ok () := by
    simp [get_cursor, hconn, hopen]
  refine ⟨fun _ _ _ => rfl, ?_, ?_⟩
  · intro f l hq
    simp [get_staff_name_by_id, staff_name_query, hcur, hq]
  · intro hq
    simp [get_staff_name_by_id, staff_name_query, hcur, hq]

/-- Witness for C7 at a connected manager and a one-row table. -/
theorem c7_staff_name_by_id_witness :
    get_staff_name_by_id dbOpen true staffT none = none ∧
    get_staff_name_by_id dbOpen true staffT (some 3) = some "Ana Lim" ∧
    get_staff_name_by_id dbOpen true staffT (some 4) = none :=
  ⟨(c7_staff_name_by_id dbOpen { id := 0, closed := false } staffT 3 rfl rfl).1
      dbOpen true staffT,
   (c7_staff_name_by_id dbOpen { id := 0, closed := false } staffT 3 rfl rfl).2.1
      "Ana" "Lim" rfl,
   (c7_staff_name_by_id dbOpen { id := 0, closed := false } staffT 4 rfl rfl).2.2 rfl⟩

/-- C8 counterexample: the claim that BOTH lookup helpers convert every
failure into `None` is false for `get_user_first_name` — its effective
definition (the later duplicate, which has no `try/except`) propagates the
no-active-connection exception raised by cursor acquisition instead of
returning an absent result. -/
theorem c8_counterexample :
    get_user_first_name initDB true staffT "al" =
      Except.error (DBError.noConnection "No active database connection.") ∧
    get_user_first_name initDB true staffT "al" ≠ Except.ok none := by
  refine ⟨rfl, ?_⟩
  intro hcontra
  simp [get_user_first_name, get_cursor, initDB] at hcontra

/-- C8 as amended: only `get_staff_name_by_id` converts every failure of its
body — cursor acquisition or execution — into an absent result; the
effective `get_user_first_name` has no handler and, on a manager with no
active connection, propagates the exception to the caller. -/
theorem c8_amended_only_staff_lookup_swallows (s : DB) (execOk : Bool)
    (t : Table) (i : Int) (u : String) :
    (∀ e, staff_name_query s execOk t i = Except.error e →
      get_staff_name_by_id s execOk t (some i) = none) ∧
    (s.connection = none →
      get_user_first_name s execOk t u =
        Except.error (DBError.noConnection "No active database connection.")) := by
  constructor
  · intro e he
    simp [get_staff_name_by_id, he]
  · intro hc
    simp [get_user_first_name, get_cursor, hc]

/-- Witness for the amended C8: a disconnected manager. -/
theorem c8_amended_only_staff_lookup_swallows_witness :
    get_staff_name_by_id initDB true staffT (some 3) = none ∧
    get_user_first_name initDB true staffT "al" =
      Except.error (DBError.noConnection "No active database connection.") :=
  ⟨(c8_amended_only_staff_lookup_swallows initDB true staffT 3 "al").1
      (DBError.noConnection "No active database connection.") rfl,
   (c8_amended_only_staff_lookup_swallows initDB true staffT 3 "al").2 rfl⟩

/-- Every call to `_load_config` stores the value it returns in
`self._config` before returning it. -/
theorem load_config_caches (env : Env) (fs : List FileState) (cfg0 : Option Config) :
    (load_config env fs cfg0).2 = some (load_config env fs cfg0).1 := by
  unfold load_config
  rcases hc : cfg0 with _ | c
  · simp only [configTruthy, Bool.false_eq_true, if_false]
    rcases hall : (envConfig env).all (fun kv => truthyVal kv.2) with _ | _
    · simp only [Bool.false_eq_true, if_false]
      rcases tryFiles env fs with _ | fc <;> rfl
    · rfl
  · rcases hemp : c.isEmpty with _ | _
    · simp [configTruthy, hemp]
    · simp only [configTruthy, hemp, Bool.not_true, Bool.false_eq_true, if_false]
      rcases hall : (envConfig env).all (fun kv => truthyVal kv.2) with _ | _
      · simp only [Bool.false_eq_true, if_false]
        rcases tryFiles env fs with _ | fc <;> rfl
      · rfl

/-- C9 counterexample: memoization can fail.  A first call resolving from an
empty parsed config file returns (and caches) the empty dict, which the
guard `if self._config:` treats as falsy; a second call therefore
re-resolves against the changed environment and returns a different config
than the first call did. -/
theorem c9_counterexample :
    (load_config envAll fsEmptyFile
        (load_config emptyEnv fsEmptyFile none).2).1
      ≠ (load_config emptyEnv fsEmptyFile none).1 := by
  decide

/-- C9 as amended: `_load_config` caches its result on every call, and the
cache is honored — later calls return the cached config unchanged regardless
of environment or file changes — whenever the cached config is non-empty (a
first call can only produce an empty config when a candidate file parses to
an empty JSON object, in which case the dict-truthiness guard
`if self._config:` fails and resolution re-runs). -/
theorem c9_amended_memoized_when_nonempty (env env2 : Env)
    (fs fs2 : List FileState) (c : Config) (hc : c ≠ []) :
    (load_config env fs none).2 = some (load_config env fs none).1 ∧
    load_config env2 fs2 (some c) = (c, some c) := by
  refine ⟨load_config_caches env fs none, ?_⟩
  have hemp : c.isEmpty = false := by
    rcases c with _ | ⟨kv, rest⟩
    · exact absurd rfl hc
    · rfl
  simp [load_config, configTruthy, hemp]

/-- Witness for the amended C9: the fallback config is cached by a first
call and returned unchanged by a second call under a changed environment. -/
theorem c9_amended_memoized_when_nonempty_witness :
    (load_config emptyEnv [] none).2 = some (load_config emptyEnv [] none).1 ∧
    load_config envAll fsDbnameFile (some fallback_config) =
      (fallback_config, some fallback_config) :=
  c9_amended_memoized_when_nonempty emptyEnv envAll [] fsDbnameFile
    fallback_config (by decide)

/-- A driver attempt never touches the `cursor` attribute slot. -/
theorem connectAttempt_cursor (env : Env) (fs : List FileState) (driver : Driver)
    (s : DB) : (connectAttempt env fs driver s).2.cursor = s.cursor := by
  unfold connectAttempt
  rcases driver s.attempts (load_config env fs s._config).1 with _ | n <;> rfl

/-- `connect` never touches the `cursor` attribute slot. -/
theorem connect_cursor (env : Env) (fs : List FileState) (driver : Driver)
    (s : DB) : (connect env fs driver s).2.cursor = s.cursor := by
  rcases connect_cases env fs driver s with hca | ⟨c0, _, _, hce⟩
  · rw [hca]; exact connectAttempt_cursor env fs driver s
  · rw [hce]

/-- `close` never touches the `cursor` attribute slot. -/
theorem close_cursor (s : DB) : (close s).cursor = s.cursor := by
  unfold close
  rcases s.connection with _ | c <;> rfl

/-- `fetch_one` only changes the state through its inner `connect`. -/
theorem fetch_one_state (env : Env) (fs : List FileState) (driver : Driver)
    (q : String) (ps : List String)
    (fr : String → List String → Option (List String)) (s : DB) :
    (fetch_one env fs driver q ps fr s).2 = (connect env fs driver s).2 := by
  unfold fetch_one
  rcases hco : connect env fs driver s with ⟨r, s1⟩
  rcases r with e | u
  · rfl
  · rcases hcu : s1.cursor with _ | u2 <;> simp [hcu]

/-- No method call writes the `cursor` attribute. -/
theorem step_cursor (s : DB) (op : Op) : (step s op).cursor = s.cursor := by
  rcases op with ⟨env, fs, driver⟩ | _ | ⟨env, fs⟩ | ⟨env, fs, driver, q, ps, fr⟩ | _ | _ | _
  · exact connect_cursor env fs driver s
  · exact close_cursor s
  · rfl
  · show (fetch_one env fs driver q ps fr s).2.cursor = s.cursor
    rw [fetch_one_state]
    exact connect_cursor env fs driver s
  · rfl
  · rfl
  · rfl

/-- In every state reachable by method calls from a fresh `Database()`, the
`cursor` attribute has never been assigned. -/
theorem foldl_cursor (ops : List Op) (s : DB) (h : s.cursor = none) :
    (List.foldl step s ops).cursor = none := by
  induction ops generalizing s with
  | nil => exact h
  | cons op rest ih =>
      exact ih (step s op) (by rw [step_cursor]; exact h)

/-- The reachable-state form of the invariant. -/
theorem run_cursor (ops : List Op) : (run ops).cursor = none :=
  foldl_cursor ops initDB rfl

/-- C10: `fetch_one` returns `None` for every query, parameter list, driver
outcome and reachable manager state.  Either the inner `connect` raises (the
blanket handler returns `None`), or the body reads `self.cursor`, an
attribute no method of the class ever assigns, so the read raises
`AttributeError` and the handler again returns `None`; the would-be query
result `fr` can never be returned. -/
theorem c10_fetch_one_always_none (ops : List Op) (env : Env)
    (fs : List FileState) (driver : Driver) (q : String) (ps : List String)
    (fr : String → List String → Option (List String)) :
    (fetch_one env fs driver q ps fr (run ops)).1 = none := by
  have hcur : (connect env fs driver (run ops)).2.cursor = none := by
    rw [connect_cursor]; exact run_cursor ops
  unfold fetch_one
  rcases hco : connect env fs driver (run ops) with ⟨r, s1⟩
  rw [hco] at hcur
  rcases r with e | u
  · rfl
  · show (match s1.cursor with
      | none => ((none : Option (List String)), s1)
      | some _ => (fr q ps, s1)).1 = none
    rw [show s1.cursor = none from hcur]

end PaperSync
